import Mathlib

/-!
Verification development for a pair of HTTP microservices (catalog, payment).
The Python handlers are shallowly embedded: each endpoint body becomes a pure
Lean function over explicit state; the in-memory dict stores become
insertion-ordered lists; fallible handlers return `Except HTTPException`.
Monetary values and ratings (Python floats) are modelled as rationals;
generated identifiers and timestamps are passed in as parameters.
-/

namespace Catalog

/-- `CategoryCode` literal enum from the catalog service. -/
inductive CategoryCode
  | electronics | clothing | food | books | sports | home | beauty | toys
deriving DecidableEq, Repr

/-- `ProductStatus` literal enum. -/
inductive ProductStatus
  | draft | active | archived | out_of_stock
deriving DecidableEq, Repr

/-- `SortOrder` literal enum accepted by `list_products`. -/
inductive SortOrder
  | price_asc | price_desc | rating_desc | newest | popular
deriving DecidableEq, Repr

/-- `ContentRating` literal enum. -/
inductive ContentRating
  | general | teen | mature
deriving DecidableEq, Repr

/-- `VisibilityLevel` literal enum; `privateV` models the value "private". -/
inductive VisibilityLevel
  | publicV | members_only | privateV
deriving DecidableEq, Repr

/-- `ReviewStatus` literal enum. -/
inductive ReviewStatus
  | pending | approved | rejected | flagged
deriving DecidableEq, Repr

/-- `DiscountType` literal enum. -/
inductive DiscountType
  | percentage | fixed_amount | buy_x_get_y | bundle
deriving DecidableEq, Repr

/-- Roles carried by `CurrentUser` in the catalog service. -/
inductive Role
  | user | vendor | moderator
deriving DecidableEq, Repr

/-- The authenticated caller supplied by the identity dependency. -/
structure CurrentUser where
  id : String
  role : Role
  email : String
deriving DecidableEq, Repr

/-- `HTTPException(status_code, detail)` raised by handlers. -/
structure HTTPException where
  status_code : Nat
  detail : String
deriving DecidableEq, Repr

/-- A stored product record (value of the `_products` dict). -/
structure Product where
  id : String
  vendor_id : String
  name : String
  description : String
  category : CategoryCode
  price : ℚ
  sale_price : Option ℚ
  stock_quantity : ℤ
  sku : String
  weight_kg : Option ℚ
  tags : List String
  status : ProductStatus
  visibility : VisibilityLevel
  content_rating : ContentRating
  created_at : String
deriving DecidableEq, Repr

/-- `CreateProductRequest` after parsing (the validated candidate object). -/
structure CreateProductRequest where
  name : String
  description : String
  category : CategoryCode
  price : ℚ
  sale_price : Option ℚ
  stock_quantity : ℤ
  sku : String
  weight_kg : Option ℚ
  tags : List String
  status : ProductStatus
  visibility : VisibilityLevel
  content_rating : ContentRating
deriving DecidableEq, Repr

/-- A character allowed by the SKU pattern `[A-Z0-9-]`. -/
def skuCharOk (c : Char) : Bool :=
  (decide ('A' ≤ c) && decide (c ≤ 'Z')) ||
  (decide ('0' ≤ c) && decide (c ≤ '9')) ||
  (c == '-')

/-- Pydantic field and cross-field constraints of `CreateProductRequest`,
including the `validate_sale_price` model validator
(`sale_price` must be strictly less than `price` when present). -/
def CreateProductRequest.valid (r : CreateProductRequest) : Bool :=
  decide (3 ≤ r.name.length) && decide (r.name.length ≤ 120) &&
  decide (10 ≤ r.description.length) && decide (r.description.length ≤ 5000) &&
  decide (0 < r.price) && decide (r.price < 1000000) &&
  (match r.sale_price with
   | none => true
   | some sp => decide (0 < sp) && decide (sp < 1000000)) &&
  decide (0 ≤ r.stock_quantity) && decide (r.stock_quantity ≤ 999999) &&
  decide (6 ≤ r.sku.length) && decide (r.sku.length ≤ 32) &&
  r.sku.data.all skuCharOk &&
  (match r.weight_kg with
   | none => true
   | some w => decide (0 ≤ w) && decide (w ≤ 500)) &&
  decide (r.tags.length ≤ 10) &&
  r.tags.all (fun t => decide (2 ≤ t.length) && decide (t.length ≤ 30)) &&
  (match r.sale_price with
   | none => true
   | some sp => decide (sp < r.price))

/-- `UpdateProductRequest`: every field optional; no cross-field validator. -/
structure UpdateProductRequest where
  name : Option String := none
  description : Option String := none
  price : Option ℚ := none
  sale_price : Option ℚ := none
  stock_quantity : Option ℤ := none
  status : Option ProductStatus := none
  visibility : Option VisibilityLevel := none
deriving DecidableEq, Repr

/-- Pydantic per-field constraints of `UpdateProductRequest`
(present fields only; there is no cross-field check). -/
def UpdateProductRequest.valid (r : UpdateProductRequest) : Bool :=
  (match r.name with
   | none => true
   | some n => decide (3 ≤ n.length) && decide (n.length ≤ 120)) &&
  (match r.description with
   | none => true
   | some d => decide (10 ≤ d.length) && decide (d.length ≤ 5000)) &&
  (match r.price with
   | none => true
   | some p => decide (0 < p) && decide (p < 1000000)) &&
  (match r.sale_price with
   | none => true
   | some sp => decide (0 < sp) && decide (sp < 1000000)) &&
  (match r.stock_quantity with
   | none => true
   | some q => decide (0 ≤ q) && decide (q ≤ 999999))

/-- `create_product`: builds the record and inserts it into the store.
`pid` and `now` stand for the generated uuid and timestamp. -/
def create_product (body : CreateProductRequest) (u : CurrentUser)
    (pid now : String) (s : List Product) : List Product × Product :=
  let p : Product :=
    { id := pid
      vendor_id := u.id
      name := body.name
      description := body.description
      category := body.category
      price := body.price
      sale_price := body.sale_price
      stock_quantity := body.stock_quantity
      sku := body.sku
      weight_kg := body.weight_kg
      tags := body.tags
      status := body.status
      visibility := body.visibility
      content_rating := body.content_rating
      created_at := now }
  (s ++ [p], p)

/-- `product.update({k: v for k, v in body if v is not None})`:
present request fields overwrite, absent ones leave the stored value. -/
def applyUpdate (p : Product) (b : UpdateProductRequest) : Product :=
  { p with
    name := b.name.getD p.name
    description := b.description.getD p.description
    price := b.price.getD p.price
    sale_price := match b.sale_price with
                  | some v => some v
                  | none => p.sale_price
    stock_quantity := b.stock_quantity.getD p.stock_quantity
    status := b.status.getD p.status
    visibility := b.visibility.getD p.visibility }

/-- `update_product` handler: 404 on missing id, 403 for a non-owner,
then in-place field update with no cross-field re-validation. -/
def update_product (product_id : String) (body : UpdateProductRequest)
    (u : CurrentUser) (s : List Product) :
    Except HTTPException (List Product × Product) :=
  match s.find? (fun p => p.id == product_id) with
  | none => .error ⟨404, "Product not found"⟩
  | some p =>
    if p.vendor_id ≠ u.id then
      .error ⟨403, "Cannot update another vendor's product"⟩
    else
      let p' := applyUpdate p body
      .ok (s.map (fun q => if q.id == product_id then p' else q), p')

/-- `delete_product` handler: removes only the product record itself. -/
def delete_product (product_id : String) (u : CurrentUser)
    (s : List Product) : Except HTTPException (List Product) :=
  match s.find? (fun p => p.id == product_id) with
  | none => .error ⟨404, "Product not found"⟩
  | some p =>
    if p.vendor_id ≠ u.id then
      .error ⟨403, "Cannot delete another vendor's product"⟩
    else
      .ok (s.filter (fun q => !(q.id == product_id)))

/-- The cross-field invariant stated by the spec: a stored `sale_price`
is strictly less than `price` whenever present. -/
def saleInv (p : Product) : Bool :=
  match p.sale_price with
  | none => true
  | some sp => decide (sp < p.price)

/-- `list_products` handler: optional conjunctive filters, pagination;
the `sort` query parameter is accepted but the body never consults it.
Returns the page of items together with the filtered total. -/
def list_products (s : List Product) (category : Option CategoryCode)
    (status : Option ProductStatus) (sort : SortOrder)
    (min_price max_price : Option ℚ) (page page_size : Nat) :
    Except HTTPException (List Product × Nat) :=
  if (match min_price, max_price with
      | some mn, some mx => decide (mn > mx)
      | _, _ => false) then
    .error ⟨400, "min_price must not exceed max_price"⟩
  else
    let i1 := match category with
              | none => s
              | some c => s.filter (fun p => p.category == c)
    let i2 := match status with
              | none => i1
              | some st => i1.filter (fun p => p.status == st)
    let i3 := match min_price with
              | none => i2
              | some mn => i2.filter (fun p => decide (p.price ≥ mn))
    let i4 := match max_price with
              | none => i3
              | some mx => i3.filter (fun p => decide (p.price ≤ mx))
    let start := (page - 1) * page_size
    .ok ((i4.drop start).take page_size, i4.length)

/-- The conjunction of the four optional `list_products` filters
as one predicate over a product. -/
def matchesFilters (category : Option CategoryCode)
    (status : Option ProductStatus) (mn mx : Option ℚ) (p : Product) : Bool :=
  (match category with | none => true | some c => p.category == c) &&
  (match status with | none => true | some st => p.status == st) &&
  (match mn with | none => true | some m => decide (p.price ≥ m)) &&
  (match mx with | none => true | some m => decide (p.price ≤ m))

/-- `AdjustStockRequest`: signed delta plus a free-text reason. -/
structure AdjustStockRequest where
  delta : ℤ
  reason : String
deriving DecidableEq, Repr

/-- Pydantic constraints of `AdjustStockRequest`:
`delta ∈ [-10000, 10000]`, reason 5-200 characters. -/
def AdjustStockRequest.valid (r : AdjustStockRequest) : Bool :=
  decide (-10000 ≤ r.delta) && decide (r.delta ≤ 10000) &&
  decide (5 ≤ r.reason.length) && decide (r.reason.length ≤ 200)

/-- `adjust_stock` handler: 404 on missing id, 403 for a non-owner,
400 when the adjusted stock would go negative (stock left untouched),
otherwise stores `stock + delta` and returns it. -/
def adjust_stock (product_id : String) (body : AdjustStockRequest)
    (u : CurrentUser) (s : List Product) :
    Except HTTPException (List Product × ℤ) :=
  match s.find? (fun p => p.id == product_id) with
  | none => .error ⟨404, "Product not found"⟩
  | some p =>
    if p.vendor_id ≠ u.id then
      .error ⟨403, "Cannot adjust stock of another vendor's product"⟩
    else
      let new_stock := p.stock_quantity + body.delta
      if new_stock < 0 then
        .error ⟨400, "Insufficient stock. Current: " ++
                     toString p.stock_quantity ++ ", delta: " ++
                     toString body.delta⟩
      else
        .ok (s.map (fun q => if q.id == product_id then
                               { q with stock_quantity := new_stock }
                             else q),
             new_stock)

/-- A stored review record (value of the `_reviews` dict).
`moderator_note` only exists once a moderator supplied one. -/
structure Review where
  id : String
  author_id : String
  product_id : String
  rating : ℚ
  title : String
  body : String
  pros : List String
  cons : List String
  verified_purchase : Bool
  status : ReviewStatus
  helpful_votes : ℤ
  moderator_note : Option String
  created_at : String
deriving DecidableEq, Repr

/-- `CreateReviewRequest` after parsing (also the body of `update_review`). -/
structure CreateReviewRequest where
  product_id : String
  rating : ℚ
  title : String
  body : String
  pros : List String
  cons : List String
  verified_purchase : Bool
deriving DecidableEq, Repr

/-- Pydantic constraints of `CreateReviewRequest`, including the
`validate_rating_precision` validator (`round(rating*2) == rating*2`,
i.e. the doubled rating is an integer). -/
def CreateReviewRequest.valid (r : CreateReviewRequest) : Bool :=
  (r.product_id.length == 36) &&
  decide (1 ≤ r.rating) && decide (r.rating ≤ 5) &&
  ((2 * r.rating).den == 1) &&
  decide (5 ≤ r.title.length) && decide (r.title.length ≤ 100) &&
  decide (20 ≤ r.body.length) && decide (r.body.length ≤ 2000) &&
  decide (r.pros.length ≤ 5) && decide (r.cons.length ≤ 5)

/-- `create_review` handler: 404 unless the referenced product exists,
otherwise stores a new review with status `pending`. -/
def create_review (body : CreateReviewRequest) (u : CurrentUser)
    (rid now : String) (prods : List Product) (revs : List Review) :
    Except HTTPException (List Review × Review) :=
  match prods.find? (fun p => p.id == body.product_id) with
  | none => .error ⟨404, "Product not found"⟩
  | some _ =>
    let r : Review :=
      { id := rid
        author_id := u.id
        product_id := body.product_id
        rating := body.rating
        title := body.title
        body := body.body
        pros := body.pros
        cons := body.cons
        verified_purchase := body.verified_purchase
        status := .pending
        helpful_votes := 0
        moderator_note := none
        created_at := now }
    .ok (revs ++ [r], r)

/-- `review.update(body.model_dump())` in `update_review`: overwrites the
seven request fields (including `product_id`, unchecked), leaves the rest. -/
def applyReviewUpdate (r : Review) (b : CreateReviewRequest) : Review :=
  { r with
    product_id := b.product_id
    rating := b.rating
    title := b.title
    body := b.body
    pros := b.pros
    cons := b.cons
    verified_purchase := b.verified_purchase }

/-- `update_review` handler: 404 on missing id, 403 for a non-author,
then overwrites the content fields with no product existence check. -/
def update_review (review_id : String) (body : CreateReviewRequest)
    (u : CurrentUser) (revs : List Review) :
    Except HTTPException (List Review × Review) :=
  match revs.find? (fun r => r.id == review_id) with
  | none => .error ⟨404, "Review not found"⟩
  | some r =>
    if r.author_id ≠ u.id then
      .error ⟨403, "Cannot edit another user's review"⟩
    else
      let r' := applyReviewUpdate r body
      .ok (revs.map (fun q => if q.id == review_id then r' else q), r')

/-- `ModerateReviewRequest`: target review, requested status, optional note. -/
structure ModerateReviewRequest where
  review_id : String
  action : ReviewStatus
  moderator_note : Option String := none
deriving DecidableEq, Repr

/-- `moderate_review` handler: 403 unless the caller is a moderator,
404 on missing review, then sets the status to the requested action
(whatever the current status is) and attaches the note when truthy. -/
def moderate_review (body : ModerateReviewRequest) (u : CurrentUser)
    (revs : List Review) : Except HTTPException (List Review × Review) :=
  if u.role ≠ .moderator then
    .error ⟨403, "Only moderators can moderate reviews"⟩
  else
    match revs.find? (fun r => r.id == body.review_id) with
    | none => .error ⟨404, "Review not found"⟩
    | some r =>
      let r₁ := { r with status := body.action }
      let r' := match body.moderator_note with
                | some n => if n ≠ "" then { r₁ with moderator_note := some n }
                            else r₁
                | none => r₁
      .ok (revs.map (fun q => if q.id == body.review_id then r' else q), r')

/-- Referential integrity of the review store: every stored review's
`product_id` names a product present in the product store. -/
def refIntegrity (prods : List Product) (revs : List Review) : Bool :=
  revs.all (fun r => prods.any (fun p => p.id == r.product_id))

/-- One wishlist entry. -/
structure WishlistItem where
  product_id : String
  priority : ℤ
  note : Option String
  added_at : String
deriving DecidableEq, Repr

/-- `WishlistAddRequest`: product reference, priority 1-10, optional note. -/
structure WishlistAddRequest where
  product_id : String
  priority : ℤ
  note : Option String := none
deriving DecidableEq, Repr

/-- The `_wishlists` dict: user id to ordered item list. -/
def Wishlists := List (String × List WishlistItem)

/-- Write a user's wishlist back into the store
(`_wishlists.setdefault(user_id, [])` followed by in-place mutation):
replaces the entry when the key exists, otherwise appends it. -/
def setWishlist (wls : List (String × List WishlistItem)) (uid : String)
    (l : List WishlistItem) : List (String × List WishlistItem) :=
  if (wls.lookup uid).isSome then
    wls.map (fun pr => if pr.1 == uid then (pr.1, l) else pr)
  else
    wls ++ [(uid, l)]

/-- `add_to_wishlist` handler: 403 unless the path user is the caller,
404 unless the product exists, 400 when the list already holds 500 items,
otherwise appends the item with the current timestamp. -/
def add_to_wishlist (user_id : String) (body : WishlistAddRequest)
    (u : CurrentUser) (now : String) (prods : List Product)
    (wls : List (String × List WishlistItem)) :
    Except HTTPException ((List (String × List WishlistItem)) × WishlistItem) :=
  if user_id ≠ u.id then
    .error ⟨403, "Cannot modify another user's wishlist"⟩
  else
    match prods.find? (fun p => p.id == body.product_id) with
    | none => .error ⟨404, "Product not found"⟩
    | some _ =>
      let wishlist := (wls.lookup user_id).getD []
      if wishlist.length ≥ 500 then
        .error ⟨400, "Wishlist is full (max 500 items)"⟩
      else
        let item : WishlistItem :=
          { product_id := body.product_id
            priority := body.priority
            note := body.note
            added_at := now }
        .ok (setWishlist wls user_id (wishlist ++ [item]), item)

/-- `remove_from_wishlist` handler: 403 unless the path user is the caller;
the source assigns the filtered list back into the store before comparing
lengths, so the written-back state is returned together with the optional
404 raised when nothing matched. -/
def remove_from_wishlist (user_id product_id : String) (u : CurrentUser)
    (wls : List (String × List WishlistItem)) :
    (List (String × List WishlistItem)) × Option HTTPException :=
  if user_id ≠ u.id then
    (wls, some ⟨403, "Cannot modify another user's wishlist"⟩)
  else
    let wishlist := (wls.lookup user_id).getD []
    let kept := wishlist.filter (fun i => !(i.product_id == product_id))
    let wls' := setWishlist wls user_id kept
    if kept.length == wishlist.length then
      (wls', some ⟨404, "Product not in wishlist"⟩)
    else
      (wls', none)

/-- Capacity invariant over the wishlist store: no list exceeds 500 items. -/
def wishlistCap (wls : List (String × List WishlistItem)) : Prop :=
  ∀ pr ∈ wls, pr.2.length ≤ 500

/-- A stored discount record (value of the `_discounts` dict, keyed by code). -/
structure Discount where
  id : String
  created_by : String
  code : String
  discount_type : DiscountType
  value : ℚ
  max_uses : Option ℤ
  min_order_amount : Option ℚ
  valid_days : ℤ
  uses : ℤ
  created_at : String
deriving DecidableEq, Repr

/-- `validate_discount` handler. The three checks run in source order:
unknown code, minimum order amount, usage limit. `discount.get(k)` guards
use Python truthiness, so `None` and `0` both skip a check. -/
def validate_discount (discounts : List (String × Discount)) (code : String)
    (order_amount : ℚ) : Except HTTPException (Bool × Discount) :=
  match discounts.lookup code with
  | none => .error ⟨404, "Discount code not found"⟩
  | some d =>
    if (match d.min_order_amount with
        | none => false
        | some m => decide (m ≠ 0) && decide (order_amount < m)) then
      .error ⟨400, "Minimum order amount is " ++
                   toString ((d.min_order_amount).getD 0)⟩
    else if (match d.max_uses with
             | none => false
             | some mu => decide (mu ≠ 0) && decide (d.uses ≥ mu)) then
      .error ⟨400, "Discount code has reached its usage limit"⟩
    else
      .ok (true, d)

/-- Adjustment kind for `bulk_price_update`. -/
inductive AdjustmentType
  | fixed | percentage
deriving DecidableEq, Repr

/-- `BulkPriceUpdateRequest`: targets, adjustment, optional floor. -/
structure BulkPriceUpdateRequest where
  product_ids : List String
  adjustment_type : AdjustmentType
  adjustment_value : ℚ
  price_floor : Option ℚ := none
deriving DecidableEq, Repr

/-- Pydantic constraints of `BulkPriceUpdateRequest`, including the
percentage-cap model validator. -/
def BulkPriceUpdateRequest.valid (r : BulkPriceUpdateRequest) : Bool :=
  decide (1 ≤ r.product_ids.length) && decide (r.product_ids.length ≤ 200) &&
  decide (0 < r.adjustment_value) &&
  (match r.price_floor with
   | none => true
   | some f => decide ((1 : ℚ)/100 ≤ f)) &&
  (match r.adjustment_type with
   | .percentage => decide (r.adjustment_value ≤ 100)
   | .fixed => true)

/-- A success entry of the bulk update manifest. -/
structure UpdatedEntry where
  id : String
  old_price : ℚ
  new_price : ℚ
deriving DecidableEq, Repr

/-- A skip entry of the bulk update manifest. -/
structure SkippedEntry where
  id : String
  reason : String
deriving DecidableEq, Repr

/-- Round-half-to-even to an integer, the rounding Python's `round` uses. -/
def roundHalfEven (x : ℚ) : ℤ :=
  let f := x.floor
  let frac := x - f
  if frac < 1/2 then f
  else if frac > 1/2 then f + 1
  else if f % 2 = 0 then f else f + 1

/-- `round(x, 2)`: round to two decimal places, ties to even. -/
def round2 (x : ℚ) : ℚ := (roundHalfEven (100 * x) : ℚ) / 100

/-- The per-id step of `bulk_price_update`: threads the product store and
appends exactly one manifest entry (updated or skipped) for the id. -/
def bulkStep (u : CurrentUser) (body : BulkPriceUpdateRequest)
    (acc : List Product × List UpdatedEntry × List SkippedEntry)
    (product_id : String) :
    List Product × List UpdatedEntry × List SkippedEntry :=
  let (store, upd, skp) := acc
  match store.find? (fun p => p.id == product_id) with
  | none => (store, upd, skp ++ [⟨product_id, "not_found"⟩])
  | some p =>
    if u.role = .vendor ∧ p.vendor_id ≠ u.id then
      (store, upd, skp ++ [⟨product_id, "not_owner"⟩])
    else
      let old_price := p.price
      let raw := match body.adjustment_type with
                 | .percentage => old_price * (1 - body.adjustment_value / 100)
                 | .fixed => old_price - body.adjustment_value
      let floored := match body.price_floor with
                     | some fl => if fl ≠ 0 ∧ raw < fl then fl else raw
                     | none => raw
      if floored ≤ 0 then
        (store, upd, skp ++ [⟨product_id, "price_would_be_zero_or_negative"⟩])
      else
        let newp := round2 floored
        (store.map (fun q => if q.id == product_id then
                               { q with price := newp }
                             else q),
         upd ++ [⟨product_id, old_price, newp⟩], skp)

/-- `bulk_price_update` handler: 403 unless vendor or moderator, otherwise
folds `bulkStep` over the target ids and returns the manifest; per-id
failures are recorded, never propagated. -/
def bulk_price_update (body : BulkPriceUpdateRequest) (u : CurrentUser)
    (store : List Product) :
    Except HTTPException (List Product × List UpdatedEntry × List SkippedEntry) :=
  if u.role ≠ .vendor ∧ u.role ≠ .moderator then
    .error ⟨403, "Insufficient permissions for bulk price update"⟩
  else
    .ok (body.product_ids.foldl (bulkStep u body) (store, [], []))

end Catalog

namespace Payment

/-- `PaymentStatus` enum of the payment service; `partlyRefunded`
models the value "partially_refunded". -/
inductive PaymentStatus
  | pending | authorized | completed | failed | voided | refunded
  | partlyRefunded
deriving DecidableEq, Repr

/-- `RefundReason` literal enum. -/
inductive RefundReason
  | duplicate | fraudulent | customer_request | product_not_received
  | product_unacceptable
deriving DecidableEq, Repr

/-- The authenticated caller of the payment service. -/
structure PaymentUser where
  id : String
  role : String
deriving DecidableEq, Repr

/-- The transaction record consulted by `create_refund`
(in the source the DB lookup is simulated; the record is a parameter here). -/
structure Transaction where
  transaction_id : String
  customer_id : String
  status : PaymentStatus
  amount : ℚ
  refunded_amount : ℚ
deriving DecidableEq, Repr

/-- `RefundRequest`: transaction, optional amount (omit for full refund),
reason, optional notes. -/
structure RefundRequest where
  transaction_id : String
  amount : Option ℚ := none
  reason : RefundReason
  notes : Option String := none
deriving DecidableEq, Repr

/-- Pydantic constraints of `RefundRequest`
(`amount`, when present, in `(0, 1_000_000)`). -/
def RefundRequest.valid (r : RefundRequest) : Bool :=
  (r.transaction_id.length == 36) &&
  (match r.amount with
   | none => true
   | some a => decide (0 < a) && decide (a < 1000000)) &&
  (match r.notes with
   | none => true
   | some n => decide (n.length ≤ 500))

/-- The successful result of `create_refund`. -/
structure RefundResult where
  refund_id : String
  transaction_id : String
  amount : ℚ
  reason : RefundReason
  status : String
deriving DecidableEq, Repr

/-- `request.amount or transaction["amount"]`: Python `or` falls through
on `None` and on `0`. -/
def refundAmount (request : RefundRequest) (transaction : Transaction) : ℚ :=
  match request.amount with
  | some a => if a ≠ 0 then a else transaction.amount
  | none => transaction.amount

/-- `create_refund` handler body, given the looked-up transaction:
403 for a non-owner, 409 unless the transaction is completed, 422 when the
requested (or defaulted) amount exceeds the remaining refundable balance,
otherwise a processed refund for exactly that amount. -/
def create_refund (request : RefundRequest) (current_user : PaymentUser)
    (transaction : Transaction) (refund_id : String) :
    Except Catalog.HTTPException RefundResult :=
  if transaction.customer_id ≠ current_user.id then
    .error ⟨403, "Access denied"⟩
  else if transaction.status ≠ .completed then
    .error ⟨409, "Only completed transactions can be refunded"⟩
  else
    let refund_amount := refundAmount request transaction
    let remaining_refundable := transaction.amount - transaction.refunded_amount
    if refund_amount > remaining_refundable then
      .error ⟨422, "Refund amount " ++ toString refund_amount ++
                   " exceeds refundable balance " ++
                   toString remaining_refundable⟩
    else
      .ok { refund_id := refund_id
            transaction_id := request.transaction_id
            amount := refund_amount
            reason := request.reason
            status := "processed" }

end Payment

deriving instance DecidableEq for Except

open Catalog Payment

/-- A vendor account owning the example products. -/
def vendorU : CurrentUser := ⟨"v-1", .vendor, "v@example.com"⟩

/-- A moderator account. -/
def modU : CurrentUser := ⟨"m-1", .moderator, "m@example.com"⟩

/-- A plain user account. -/
def plainU : CurrentUser := ⟨"user-123", .user, "user@example.com"⟩

/-- Example product: price 100, sale price 50, stock 10, owned by `vendorU`. -/
def prodBase : Product :=
  { id := "p-1", vendor_id := "v-1", name := "Widget",
    description := "A test widget only.", category := .electronics,
    price := 100, sale_price := some 50, stock_quantity := 10,
    sku := "SKU-0001", weight_kg := none, tags := [], status := .draft,
    visibility := .publicV, content_rating := .general, created_at := "t0" }

/-- Update request that changes only the price, to 40. -/
def updPrice40 : UpdateProductRequest := { price := some 40 }

/-- Update request that changes only the stock quantity, to 5. -/
def updStock5 : UpdateProductRequest := { stock_quantity := some 5 }

/-- A valid creation request matching `prodBase`'s fields. -/
def createReq0 : CreateProductRequest :=
  { name := "Widget", description := "A test widget only.",
    category := .electronics, price := 100, sale_price := some 50,
    stock_quantity := 10, sku := "SKU-0001", weight_kg := none, tags := [],
    status := .draft, visibility := .publicV, content_rating := .general }

/-- C1. The spec claims `sale_price < price` is enforced at all times, with
`update_product` re-checking whenever either field changes. False on the code:
`update_product` performs no cross-field re-validation, so a valid update that
lowers `price` to 40 leaves the stored `sale_price` 50 above it. -/
theorem C1_counterexample :
    UpdateProductRequest.valid updPrice40 = true ∧
    saleInv prodBase = true ∧
    update_product "p-1" updPrice40 vendorU [prodBase] =
      .ok ([{ prodBase with price := 40 }], { prodBase with price := 40 }) ∧
    saleInv { prodBase with price := 40 } = false :=
  ⟨by decide, by decide, by decide, by decide⟩

/-- C1 (amended): `create_product` establishes the invariant for every valid
request, and `update_product` preserves it when the request changes neither
`price` nor `sale_price`; updates touching either field are not re-checked. -/
theorem C1_amended :
    (∀ (body : CreateProductRequest) (u : CurrentUser) (pid now : String)
       (s : List Product), body.valid = true →
       saleInv (create_product body u pid now s).2 = true) ∧
    (∀ (pid : String) (b : UpdateProductRequest) (u : CurrentUser)
       (st st' : List Product) (p' : Product),
       b.price = none → b.sale_price = none →
       (∀ q ∈ st, saleInv q = true) →
       update_product pid b u st = .ok (st', p') →
       ∀ q ∈ st', saleInv q = true) := by
  constructor
  · intro body u pid now s hv
    simp only [CreateProductRequest.valid, Bool.and_eq_true] at hv
    have hx := hv.2
    simp only [create_product, saleInv]
    cases hsp : body.sale_price with
    | none => rfl
    | some sp => rw [hsp] at hx; exact hx
  · intro pid b u st st' p' hbp hbs hinv hup q hq
    cases hfind : st.find? (fun p => p.id == pid) with
    | none => simp [update_product, hfind] at hup
    | some p =>
      by_cases hown : p.vendor_id = u.id
      · simp [update_product, hfind, hown] at hup
        obtain ⟨hst, hp'⟩ := hup
        subst hst
        rcases List.mem_map.1 hq with ⟨q0, hq0, hfq⟩
        by_cases hid : q0.id = pid
        · rw [if_pos hid] at hfq
          subst hfq
          have hsame : saleInv (applyUpdate p b) = saleInv p := by
            simp [applyUpdate, saleInv, hbp, hbs]
          rw [hsame]
          exact hinv p (List.mem_of_find?_eq_some hfind)
        · rw [if_neg hid] at hfq
          subst hfq
          exact hinv q0 hq0
      · simp [update_product, hfind, hown] at hup

/-- Witness for `C1_amended` at concrete inputs. -/
theorem C1_amended_witness :
    saleInv (create_product createReq0 vendorU "p-9" "t1" []).2 = true ∧
    (∀ q ∈ ([{ prodBase with stock_quantity := 5 }] : List Product),
       saleInv q = true) := by
  constructor
  · exact C1_amended.1 createReq0 vendorU "p-9" "t1" [] (by decide)
  · exact C1_amended.2 "p-1" updStock5 vendorU [prodBase]
      [{ prodBase with stock_quantity := 5 }]
      { prodBase with stock_quantity := 5 } rfl rfl (by decide) (by decide)

/-- The four sequential `list_products` filters compose into the single
conjunctive predicate `matchesFilters`. -/
theorem list_products_ok (s : List Product) (cat : Option CategoryCode)
    (st : Option ProductStatus) (so : SortOrder) (mn mx : Option ℚ)
    (pg psz : Nat)
    (hb : (match mn, mx with
           | some a, some b => decide (a > b)
           | _, _ => false) = false) :
    list_products s cat st so mn mx pg psz =
      .ok (((s.filter (fun p => matchesFilters cat st mn mx p)).drop ((pg - 1) * psz)).take
             psz,
           (s.filter (fun p => matchesFilters cat st mn mx p)).length) := by
  unfold list_products
  rw [hb]
  rcases cat with _ | c <;> rcases st with _ | stv <;>
    rcases mn with _ | mnv <;> rcases mx with _ | mxv <;>
      simp [matchesFilters, List.filter_filter, Bool.and_assoc, Bool.and_comm,
            Bool.and_left_comm]

/-- A second example product with a lower price, inserted after `prodHi`. -/
def prodHi : Product := { prodBase with id := "p-hi", price := 5, sale_price := none }

/-- A second example product with a lower price, inserted after `prodHi`. -/
def prodLo : Product := { prodBase with id := "p-lo", price := 3, sale_price := none }

/-- C2. The spec claims the requested sort order is applied. False on the
code: `list_products` accepts the `sort` parameter and never consults it, so a
`price_asc` listing returns the higher-priced product first when it was
inserted first. -/
theorem C2_counterexample :
    list_products [prodHi, prodLo] none none .price_asc none none 1 20 =
      .ok ([prodHi, prodLo], 2) ∧
    prodLo.price < prodHi.price ∧
    ¬ List.Pairwise (fun a b : Product => a.price ≤ b.price)
        [prodHi, prodLo] := by
  refine ⟨by decide, by decide, ?_⟩
  intro hPW
  have hle := (List.pairwise_cons.mp hPW).1 prodLo (by simp)
  rw [show prodHi.price = (5 : ℚ) from rfl,
      show prodLo.price = (3 : ℚ) from rfl] at hle
  norm_num at hle

/-- C2 (amended): the category/status/price filters are applied as a
conjunction and the result is paginated from the filtered list in insertion
order, but the requested sort order is ignored — the result does not depend
on the `sort` argument at all. -/
theorem C2_amended :
    (∀ (s : List Product) cat st (so₁ so₂ : SortOrder) mn mx pg psz,
       list_products s cat st so₁ mn mx pg psz =
         list_products s cat st so₂ mn mx pg psz) ∧
    (∀ (s : List Product) cat st (so : SortOrder) mn mx pg psz its total,
       list_products s cat st so mn mx pg psz = .ok (its, total) →
       its = ((s.filter (fun p => matchesFilters cat st mn mx p)).drop
                ((pg - 1) * psz)).take psz ∧
       total = (s.filter (fun p => matchesFilters cat st mn mx p)).length) := by
  constructor
  · intro s cat st so₁ so₂ mn mx pg psz
    rfl
  · intro s cat st so mn mx pg psz its total h
    cases hcond : (match mn, mx with
                   | some a, some b => decide (a > b)
                   | _, _ => false) with
    | true =>
      unfold list_products at h
      rw [hcond] at h
      simp at h
    | false =>
      rw [list_products_ok s cat st so mn mx pg psz hcond] at h
      simp only [Except.ok.injEq, Prod.mk.injEq] at h
      exact ⟨h.1.symm, h.2.symm⟩

/-- Witness for `C2_amended` at concrete inputs. -/
theorem C2_amended_witness :
    list_products [prodHi, prodLo] none none .price_desc none none 1 20 =
      list_products [prodHi, prodLo] none none .newest none none 1 20 ∧
    ([prodHi, prodLo] : List Product) =
      (((([prodHi, prodLo] : List Product).filter
           (fun p => matchesFilters none none none none p)).drop ((1 - 1) * 20)).take
         20) ∧
    2 = (([prodHi, prodLo] : List Product).filter
           (fun p => matchesFilters none none none none p)).length := by
  refine ⟨C2_amended.1 [prodHi, prodLo] none none .price_desc .newest
            none none 1 20, ?_⟩
  have h := C2_amended.2 [prodHi, prodLo] none none .newest none none 1 20
    [prodHi, prodLo] 2 (by decide)
  exact ⟨h.1, h.2⟩

/-- An already-approved review of `prodBase` by another user. -/
def revApproved : Review :=
  { id := "r-1", author_id := "u-9", product_id := "p-1", rating := 4,
    title := "Great widget", body := "Really enjoyed using this widget a lot.",
    pros := [], cons := [], verified_purchase := true, status := .approved,
    helpful_votes := 0, moderator_note := none, created_at := "t0" }

/-- C3. The spec claims the only transition is pending to
approved/rejected/flagged and that nothing ever leaves those states. False on
the code: `moderate_review` overwrites the status unconditionally, so a
moderator moves an already-approved review to rejected. -/
theorem C3_counterexample :
    revApproved.status = .approved ∧
    moderate_review ⟨"r-1", .rejected, none⟩ modU [revApproved] =
      .ok ([{ revApproved with status := .rejected }],
           { revApproved with status := .rejected }) ∧
    ({ revApproved with status := .rejected } : Review).status = .rejected :=
  ⟨by decide, by decide, by decide⟩

/-- C3 (amended): `moderate_review` is moderator-only and, on success, sets
the review's status to the requested action whatever the current status was
(so re-moderation out of approved/rejected/flagged is possible); reviews are
created pending, and `update_review` never changes the status. -/
theorem C3_amended :
    (∀ (body : ModerateReviewRequest) (u : CurrentUser) (revs : List Review),
       u.role ≠ .moderator →
       moderate_review body u revs =
         .error ⟨403, "Only moderators can moderate reviews"⟩) ∧
    (∀ (body : ModerateReviewRequest) (u : CurrentUser)
       (revs revs' : List Review) (r' : Review),
       moderate_review body u revs = .ok (revs', r') →
       r'.status = body.action) ∧
    (∀ (r : Review) (b : CreateReviewRequest),
       (applyReviewUpdate r b).status = r.status) ∧
    (∀ (body : CreateReviewRequest) (u : CurrentUser) (rid now : String)
       (prods : List Product) (revs revs' : List Review) (r : Review),
       create_review body u rid now prods revs = .ok (revs', r) →
       r.status = .pending) := by
  refine ⟨?_, ?_, ?_, ?_⟩
  · intro body u revs hrole
    simp [moderate_review, hrole]
  · intro body u revs revs' r' h
    by_cases hrole : u.role = .moderator
    · cases hfind : revs.find? (fun r => r.id == body.review_id) with
      | none => simp [moderate_review, hrole, hfind] at h
      | some r =>
        simp [moderate_review, hrole, hfind] at h
        obtain ⟨-, hr'⟩ := h
        cases hnote : body.moderator_note with
        | none => rw [hnote] at hr'; simp at hr'; rw [← hr']
        | some n =>
          rw [hnote] at hr'
          by_cases hn : n = ""
          · simp [hn] at hr'; rw [← hr']
          · simp [hn] at hr'; rw [← hr']
    · simp [moderate_review, hrole] at h
  · intro r b
    rfl
  · intro body u rid now prods revs revs' r h
    cases hfind : prods.find? (fun p => p.id == body.product_id) with
    | none => simp [create_review, hfind] at h
    | some p =>
      simp [create_review, hfind] at h
      rw [← h.2]

/-- Witness for `C3_amended` at concrete inputs. -/
theorem C3_amended_witness :
    moderate_review ⟨"r-1", .flagged, none⟩ plainU [revApproved] =
      .error ⟨403, "Only moderators can moderate reviews"⟩ ∧
    ({ revApproved with status := .flagged } : Review).status = .flagged := by
  constructor
  · exact C3_amended.1 ⟨"r-1", .flagged, none⟩ plainU [revApproved] (by decide)
  · exact C3_amended.2.1 ⟨"r-1", .flagged, none⟩ modU [revApproved]
      [{ revApproved with status := .flagged }]
      { revApproved with status := .flagged } (by decide)

/-- The author of `revApproved`, calling `update_review` on their own review. -/
def u9 : CurrentUser := ⟨"u-9", .user, "u9@example.com"⟩

/-- An edit of `revApproved` by its author pointing it at the nonexistent
product "p-404"; all other content fields keep their stored values. -/
def updBody404 : CreateReviewRequest :=
  ⟨"p-404", 4, "Great widget", "Really enjoyed using this widget a lot.",
   [], [], true⟩

/-- C4. The spec claims every stored review references an existing product
after every operation. False on the code twice over: `delete_product` removes
the product but not its reviews, leaving `revApproved` dangling, and
`update_review` overwrites `product_id` with the request's value unchecked,
so an edit to "p-404" succeeds and dangles while the product store is
untouched. -/
theorem C4_counterexample :
    refIntegrity [prodBase] [revApproved] = true ∧
    delete_product "p-1" vendorU [prodBase] = .ok [] ∧
    refIntegrity [] [revApproved] = false ∧
    update_review "r-1" updBody404 u9 [revApproved] =
      .ok ([{ revApproved with product_id := "p-404" }],
           { revApproved with product_id := "p-404" }) ∧
    refIntegrity [prodBase] [{ revApproved with product_id := "p-404" }] =
      false :=
  ⟨by decide, by decide, by decide, by decide, by decide⟩

/-- C4 (amended): `create_review` alone maintains the invariant — it fails
with 404 when the referenced product is absent and otherwise appends a review
whose `product_id` exists; `delete_product` does not cascade to reviews, and
`update_review` consults no product store at all, storing the requested
`product_id` unchecked on every success — so either operation can break the
invariant. -/
theorem C4_amended :
    (∀ (body : CreateReviewRequest) (u : CurrentUser) (rid now : String)
       (prods : List Product) (revs revs' : List Review) (r : Review),
       refIntegrity prods revs = true →
       create_review body u rid now prods revs = .ok (revs', r) →
       refIntegrity prods revs' = true) ∧
    (∀ (body : CreateReviewRequest) (u : CurrentUser) (rid now : String)
       (prods : List Product) (revs : List Review),
       prods.find? (fun p => p.id == body.product_id) = none →
       create_review body u rid now prods revs =
         .error ⟨404, "Product not found"⟩) ∧
    (∀ (review_id : String) (body : CreateReviewRequest) (u : CurrentUser)
       (revs revs' : List Review) (r' : Review),
       update_review review_id body u revs = .ok (revs', r') →
       r'.product_id = body.product_id) := by
  refine ⟨?_, ?_, ?_⟩
  · intro body u rid now prods revs revs' r hint h
    cases hfind : prods.find? (fun p => p.id == body.product_id) with
    | none => simp [create_review, hfind] at h
    | some p =>
      simp [create_review, hfind] at h
      obtain ⟨hrevs, -⟩ := h
      rw [← hrevs]
      simp only [refIntegrity, List.all_append, Bool.and_eq_true]
      refine ⟨hint, ?_⟩
      simp only [List.all_cons, List.all_nil, Bool.and_true]
      have hp := List.find?_some hfind
      have hmem := List.mem_of_find?_eq_some hfind
      exact List.any_eq_true.2 ⟨p, hmem, hp⟩
  · intro body u rid now prods revs hfind
    simp [create_review, hfind]
  · intro review_id body u revs revs' r' h
    cases hfind : revs.find? (fun r => r.id == review_id) with
    | none => simp [update_review, hfind] at h
    | some r0 =>
      by_cases hown : r0.author_id = u.id
      · simp [update_review, hfind, hown] at h
        rw [← h.2]
        rfl
      · simp [update_review, hfind, hown] at h

/-- Witness for `C4_amended` at concrete inputs. -/
theorem C4_amended_witness :
    refIntegrity [prodBase]
      [revApproved,
       { id := "r-2", author_id := "user-123", product_id := "p-1",
         rating := 5, title := "Works well",
         body := "The widget does exactly what it promised to do.",
         pros := [], cons := [], verified_purchase := false,
         status := .pending, helpful_votes := 0, moderator_note := none,
         created_at := "t2" }] = true ∧
    create_review
      ⟨"p-404", 5, "Works well",
       "The widget does exactly what it promised to do.", [], [], false⟩
      plainU "r-2" "t2" [prodBase] [] =
      .error ⟨404, "Product not found"⟩ ∧
    ({ revApproved with product_id := "p-404" } : Review).product_id =
      "p-404" := by
  refine ⟨?_, ?_, ?_⟩
  · exact C4_amended.1
      ⟨"p-1", 5, "Works well",
       "The widget does exactly what it promised to do.", [], [], false⟩
      plainU "r-2" "t2" [prodBase] [revApproved]
      [revApproved,
       { id := "r-2", author_id := "user-123", product_id := "p-1",
         rating := 5, title := "Works well",
         body := "The widget does exactly what it promised to do.",
         pros := [], cons := [], verified_purchase := false,
         status := .pending, helpful_votes := 0, moderator_note := none,
         created_at := "t2" }]
      { id := "r-2", author_id := "user-123", product_id := "p-1",
        rating := 5, title := "Works well",
        body := "The widget does exactly what it promised to do.",
        pros := [], cons := [], verified_purchase := false,
        status := .pending, helpful_votes := 0, moderator_note := none,
        created_at := "t2" } (by decide) (by decide)
  · exact C4_amended.2.1
      ⟨"p-404", 5, "Works well",
       "The widget does exactly what it promised to do.", [], [], false⟩
      plainU "r-2" "t2" [prodBase] [] (by decide)
  · exact C4_amended.2.2 "r-1" updBody404 u9 [revApproved]
      [{ revApproved with product_id := "p-404" }]
      { revApproved with product_id := "p-404" } (by decide)

/-- The caller in the refund examples (matches the mocked identity). -/
def payUser : PaymentUser := ⟨"user_mock_123", "user"⟩

/-- The completed transaction of the refund examples:
amount 5000, nothing refunded yet. -/
def tx5000 : Transaction :=
  { transaction_id := "11111111-1111-1111-1111-111111111111",
    customer_id := "user_mock_123", status := .completed,
    amount := 5000, refunded_amount := 0 }

/-- Refund request over `tx5000` asking for 6000. -/
def req6000 : RefundRequest :=
  { transaction_id := "11111111-1111-1111-1111-111111111111",
    amount := some 6000, reason := .customer_request }

/-- Refund request over `tx5000` with the amount omitted. -/
def reqFull : RefundRequest :=
  { transaction_id := "11111111-1111-1111-1111-111111111111",
    amount := none, reason := .customer_request }

/-- C5. `create_refund` denies non-owners (403), denies non-completed
transactions (409), defaults an omitted amount to the full transaction
amount, and hard-errors (422) when the amount exceeds the remaining
refundable balance; on `tx5000` a request of 6000 is rejected while an
omitted amount defaults to 5000 and succeeds. -/
theorem C5_refund :
    (∀ (req : RefundRequest) (u : PaymentUser) (tx : Transaction)
       (rid : String), tx.customer_id ≠ u.id →
       create_refund req u tx rid = .error ⟨403, "Access denied"⟩) ∧
    (∀ (req : RefundRequest) (u : PaymentUser) (tx : Transaction)
       (rid : String), tx.customer_id = u.id → tx.status ≠ .completed →
       create_refund req u tx rid =
         .error ⟨409, "Only completed transactions can be refunded"⟩) ∧
    (∀ (req : RefundRequest) (tx : Transaction),
       req.amount = none → refundAmount req tx = tx.amount) ∧
    (∀ (req : RefundRequest) (tx : Transaction) (a : ℚ),
       req.amount = some a → a ≠ 0 → refundAmount req tx = a) ∧
    (∀ (req : RefundRequest) (u : PaymentUser) (tx : Transaction)
       (rid : String), tx.customer_id = u.id → tx.status = .completed →
       refundAmount req tx > tx.amount - tx.refunded_amount →
       create_refund req u tx rid =
         .error ⟨422, "Refund amount " ++ toString (refundAmount req tx) ++
                      " exceeds refundable balance " ++
                      toString (tx.amount - tx.refunded_amount)⟩) ∧
    (∀ (req : RefundRequest) (u : PaymentUser) (tx : Transaction)
       (rid : String) (res : RefundResult),
       create_refund req u tx rid = .ok res →
       res.amount = refundAmount req tx ∧
       res.amount ≤ tx.amount - tx.refunded_amount ∧
       res.status = "processed") ∧
    create_refund req6000 payUser tx5000 "rf-1" =
      .error ⟨422, "Refund amount " ++ toString ((6000 : ℚ)) ++
                   " exceeds refundable balance " ++ toString ((5000 : ℚ))⟩ ∧
    create_refund reqFull payUser tx5000 "rf-1" =
      .ok { refund_id := "rf-1",
            transaction_id := "11111111-1111-1111-1111-111111111111",
            amount := 5000, reason := .customer_request,
            status := "processed" } := by
  refine ⟨?_, ?_, ?_, ?_, ?_, ?_, ?_, ?_⟩
  · intro req u tx rid hown
    simp [create_refund, hown]
  · intro req u tx rid hown hst
    simp [create_refund, hown, hst]
  · intro req tx hnone
    simp [refundAmount, hnone]
  · intro req tx a hsome hnz
    simp [refundAmount, hsome, hnz]
  · intro req u tx rid hown hst hgt
    simp [create_refund, hown, hst, hgt]
  · intro req u tx rid res h
    by_cases hown : tx.customer_id = u.id
    · by_cases hst : tx.status = .completed
      · by_cases hgt : refundAmount req tx > tx.amount - tx.refunded_amount
        · simp [create_refund, hown, hst, hgt] at h
        · simp [create_refund, hown, hst, hgt] at h
          refine ⟨?_, ?_, ?_⟩
          · rw [← h]
          · rw [← h]
            exact le_of_not_lt hgt
          · rw [← h]
      · simp [create_refund, hown, hst] at h
    · simp [create_refund, hown] at h
  · norm_num [create_refund, payUser, tx5000, req6000, refundAmount]
  · simp [create_refund, payUser, tx5000, reqFull, refundAmount]

/-- Witness for `C5_refund` at concrete inputs. -/
theorem C5_refund_witness :
    create_refund req6000 ⟨"someone-else", "user"⟩ tx5000 "rf-9" =
      .error ⟨403, "Access denied"⟩ :=
  C5_refund.1 req6000 ⟨"someone-else", "user"⟩ tx5000 "rf-9" (by decide)

/-- Truthiness of the minimum-order check in `validate_discount`:
blocked when a nonzero minimum is present and the order is below it. -/
def minBlocked (d : Discount) (amt : ℚ) : Bool :=
  match d.min_order_amount with
  | none => false
  | some m => decide (m ≠ 0) && decide (amt < m)

/-- Truthiness of the usage-limit check in `validate_discount`:
blocked when a nonzero limit is present and `uses` has reached it. -/
def useBlocked (d : Discount) : Bool :=
  match d.max_uses with
  | none => false
  | some mu => decide (mu ≠ 0) && decide (d.uses ≥ mu)

/-- `validate_discount` is literally the three guarded checks in order. -/
theorem validate_discount_eq (ds : List (String × Discount)) (code : String)
    (amt : ℚ) :
    validate_discount ds code amt =
      (match ds.lookup code with
       | none => .error ⟨404, "Discount code not found"⟩
       | some d =>
         if minBlocked d amt then
           .error ⟨400, "Minimum order amount is " ++
                        toString ((d.min_order_amount).getD 0)⟩
         else if useBlocked d then
           .error ⟨400, "Discount code has reached its usage limit"⟩
         else .ok (true, d)) := by
  unfold validate_discount minBlocked useBlocked
  rfl

/-- A discount whose usage count has reached its limit. -/
def discSave10 : Discount :=
  { id := "d-1", created_by := "v-1", code := "SAVE10",
    discount_type := .percentage, value := 10, max_uses := some 5,
    min_order_amount := some 100, valid_days := 30, uses := 5,
    created_at := "t0" }

/-- The discount store of the examples, holding only `discSave10`. -/
def discStore : List (String × Discount) := [("SAVE10", discSave10)]

/-- C6. `validate_discount` runs exactly three checks in order: unknown code
gives 404 whatever the order amount; a (positive) order amount below a
present minimum gives the minimum-order error; a present usage limit that
`uses` has reached — including `uses == max_uses` exactly — gives the
usage-limit error even when the amount is valid; otherwise the snapshot is
returned with `valid = true`. -/
theorem C6_validate :
    (∀ (ds : List (String × Discount)) (code : String) (amt : ℚ),
       ds.lookup code = none →
       validate_discount ds code amt =
         .error ⟨404, "Discount code not found"⟩) ∧
    (∀ (ds : List (String × Discount)) (code : String) (amt : ℚ)
       (d : Discount) (m : ℚ),
       ds.lookup code = some d → d.min_order_amount = some m →
       0 < amt → amt < m →
       validate_discount ds code amt =
         .error ⟨400, "Minimum order amount is " ++ toString m⟩) ∧
    (∀ (ds : List (String × Discount)) (code : String) (amt : ℚ)
       (d : Discount) (mu : ℤ),
       ds.lookup code = some d → minBlocked d amt = false →
       d.max_uses = some mu → 0 < mu → d.uses ≥ mu →
       validate_discount ds code amt =
         .error ⟨400, "Discount code has reached its usage limit"⟩) ∧
    (∀ (ds : List (String × Discount)) (code : String) (amt : ℚ)
       (d : Discount),
       ds.lookup code = some d → minBlocked d amt = false →
       useBlocked d = false →
       validate_discount ds code amt = .ok (true, d)) ∧
    (∀ amt : ℚ, validate_discount discStore "XYZ1" amt =
       .error ⟨404, "Discount code not found"⟩) ∧
    validate_discount discStore "SAVE10" 500 =
      .error ⟨400, "Discount code has reached its usage limit"⟩ := by
  refine ⟨?_, ?_, ?_, ?_, ?_, ?_⟩
  · intro ds code amt hlk
    rw [validate_discount_eq, hlk]
  · intro ds code amt d m hlk hmin hpos hlt
    have hm : (0 : ℚ) < m := lt_trans hpos hlt
    have hblk : minBlocked d amt = true := by
      simp [minBlocked, hmin, hlt]
      exact ne_of_gt hm
    rw [validate_discount_eq, hlk]
    simp [hblk, hmin]
  · intro ds code amt d mu hlk hmin hmax hpos hge
    have hblk : useBlocked d = true := by
      simp [useBlocked, hmax, hge]
      omega
    rw [validate_discount_eq, hlk]
    simp [hmin, hblk]
  · intro ds code amt d hlk hmin huse
    rw [validate_discount_eq, hlk]
    simp [hmin, huse]
  · intro amt
    rw [validate_discount_eq]
    rfl
  · norm_num [validate_discount_eq, discStore, minBlocked, useBlocked,
              discSave10]

/-- Witness for `C6_validate` at concrete inputs. -/
theorem C6_validate_witness :
    validate_discount discStore "SAVE10" 50 =
      .error ⟨400, "Minimum order amount is " ++ toString ((100 : ℚ))⟩ :=
  C6_validate.2.1 discStore "SAVE10" 50 discSave10 100 (by decide) (by decide)
    (by norm_num) (by norm_num)

/-- Each `bulkStep` appends exactly one manifest entry, bearing the processed
id, to exactly one of the two manifest lists; skip entries carry one of the
three recorded reasons. -/
theorem bulkStep_shape (u : CurrentUser) (body : BulkPriceUpdateRequest)
    (acc : List Product × List UpdatedEntry × List SkippedEntry)
    (pid : String) :
    (∃ e : UpdatedEntry, e.id = pid ∧
       (bulkStep u body acc pid).2.1 = acc.2.1 ++ [e] ∧
       (bulkStep u body acc pid).2.2 = acc.2.2) ∨
    (∃ e : SkippedEntry, e.id = pid ∧
       (e.reason = "not_found" ∨ e.reason = "not_owner" ∨
        e.reason = "price_would_be_zero_or_negative") ∧
       (bulkStep u body acc pid).2.1 = acc.2.1 ∧
       (bulkStep u body acc pid).2.2 = acc.2.2 ++ [e]) := by
  obtain ⟨store, upd, skp⟩ := acc
  unfold bulkStep
  dsimp only
  split
  · right
    exact ⟨⟨pid, "not_found"⟩, rfl, Or.inl rfl, rfl, rfl⟩
  · split
    · right
      exact ⟨⟨pid, "not_owner"⟩, rfl, Or.inr (Or.inl rfl), rfl, rfl⟩
    · split
      · right
        exact ⟨⟨pid, "price_would_be_zero_or_negative"⟩, rfl,
               Or.inr (Or.inr rfl), rfl, rfl⟩
      · left
        exact ⟨⟨pid, _, _⟩, rfl, rfl, rfl⟩

/-- Folding `bulkStep` over the target ids grows the manifest by exactly one
entry per id: total length, the per-id multiset of recorded ids, and the
skip-reason vocabulary are all accounted for. -/
theorem bulk_fold_counts (u : CurrentUser) (body : BulkPriceUpdateRequest) :
    ∀ (ids : List String) (store : List Product)
      (upd : List UpdatedEntry) (skp : List SkippedEntry),
      ((ids.foldl (bulkStep u body) (store, upd, skp)).2.1.length +
         (ids.foldl (bulkStep u body) (store, upd, skp)).2.2.length =
       upd.length + skp.length + ids.length) ∧
      (∀ pid : String,
        ((ids.foldl (bulkStep u body) (store, upd, skp)).2.1.map
            UpdatedEntry.id).count pid +
          ((ids.foldl (bulkStep u body) (store, upd, skp)).2.2.map
              SkippedEntry.id).count pid =
        (upd.map UpdatedEntry.id).count pid +
          (skp.map SkippedEntry.id).count pid + ids.count pid) ∧
      (∀ e ∈ (ids.foldl (bulkStep u body) (store, upd, skp)).2.2,
        e ∈ skp ∨ e.reason = "not_found" ∨ e.reason = "not_owner" ∨
          e.reason = "price_would_be_zero_or_negative")
  | [], store, upd, skp => by
    refine ⟨by simp, fun pid => by simp, fun e he => Or.inl ?_⟩
    simpa using he
  | pid :: ids, store, upd, skp => by
    simp only [List.foldl_cons]
    rw [show bulkStep u body (store, upd, skp) pid =
          ((bulkStep u body (store, upd, skp) pid).1,
           (bulkStep u body (store, upd, skp) pid).2.1,
           (bulkStep u body (store, upd, skp) pid).2.2) from rfl]
    have hIH := bulk_fold_counts u body ids
      (bulkStep u body (store, upd, skp) pid).1
      (bulkStep u body (store, upd, skp) pid).2.1
      (bulkStep u body (store, upd, skp) pid).2.2
    rcases bulkStep_shape u body (store, upd, skp) pid with
      ⟨e, heid, hu, hs⟩ | ⟨e, heid, hreason, hu, hs⟩
    all_goals
      dsimp only at hu hs
      rw [hu, hs] at hIH ⊢
      obtain ⟨hlen, hcnt, hrsn⟩ := hIH
      refine ⟨?_, ?_, ?_⟩
    · simp only [List.length_append, List.length_cons, List.length_nil]
        at hlen ⊢
      omega
    · intro pid'
      have hc := hcnt pid'
      simp only [List.map_append, List.count_append, List.map_cons,
        List.map_nil, List.count_cons, List.count_nil, heid] at hc ⊢
      by_cases hpp : (pid == pid') = true
      · simp only [hpp] at hc ⊢
        omega
      · simp only [Bool.not_eq_true] at hpp
        simp only [hpp] at hc ⊢
        omega
    · intro e' he'
      exact hrsn e' he'
    · simp only [List.length_append, List.length_cons, List.length_nil]
        at hlen ⊢
      omega
    · intro pid'
      have hc := hcnt pid'
      simp only [List.map_append, List.count_append, List.map_cons,
        List.map_nil, List.count_cons, List.count_nil, heid] at hc ⊢
      by_cases hpp : (pid == pid') = true
      · simp only [hpp] at hc ⊢
        omega
      · simp only [Bool.not_eq_true] at hpp
        simp only [hpp] at hc ⊢
        omega
    · intro e' he'
      rcases hrsn e' he' with hmem | hr
      · rcases List.mem_append.1 hmem with hmem' | hsingle
        · exact Or.inl hmem'
        · right
          rw [show e' = e by simpa using hsingle]
          exact hreason
      · exact Or.inr hr

/-- Product "A" of the spec's bulk-update example: price 100, owned by
`vendorU`. -/
def prodA : Product := { prodBase with id := "A" }

/-- The bulk request of the spec's example: ids A and B, percentage 10. -/
def reqAB : BulkPriceUpdateRequest :=
  { product_ids := ["A", "B"], adjustment_type := .percentage,
    adjustment_value := 10, price_floor := none }

/-- C7. `bulk_price_update` never fails once the vendor/moderator gate is
passed: each target id independently yields exactly one manifest entry —
updated (old and new price recorded) or skipped with one of the reasons
not_found, not_owner, or price_would_be_zero_or_negative — and on the spec's
example `[A(price=100), B(missing)]` with percentage adjustment 10, A is
updated from 100 to 90 and B is skipped as not_found. -/
theorem C7_bulk :
    (∀ (body : BulkPriceUpdateRequest) (u : CurrentUser)
       (store : List Product),
       (u.role = .vendor ∨ u.role = .moderator) →
       bulk_price_update body u store =
         .ok (body.product_ids.foldl (bulkStep u body) (store, [], []))) ∧
    (∀ (body : BulkPriceUpdateRequest) (u : CurrentUser)
       (store st' : List Product) (upd : List UpdatedEntry)
       (skp : List SkippedEntry),
       bulk_price_update body u store = .ok (st', upd, skp) →
       (upd.length + skp.length = body.product_ids.length) ∧
       (∀ pid : String,
         (upd.map UpdatedEntry.id).count pid +
           (skp.map SkippedEntry.id).count pid =
         body.product_ids.count pid) ∧
       (∀ e ∈ skp, e.reason = "not_found" ∨ e.reason = "not_owner" ∨
          e.reason = "price_would_be_zero_or_negative")) ∧
    bulk_price_update reqAB vendorU [prodA] =
      .ok ([{ prodA with price := 90 }],
           [⟨"A", 100, 90⟩], [⟨"B", "not_found"⟩]) := by
  refine ⟨?_, ?_, ?_⟩
  · intro body u store hrole
    have hgate : ¬(u.role ≠ .vendor ∧ u.role ≠ .moderator) := by
      rcases hrole with h | h <;> simp [h]
    simp [bulk_price_update, hgate]
  · intro body u store st' upd skp h
    by_cases hgate : u.role ≠ .vendor ∧ u.role ≠ .moderator
    · simp [bulk_price_update, hgate] at h
    · simp [bulk_price_update, hgate] at h
      obtain ⟨hc1, hc2, hc3⟩ := bulk_fold_counts u body body.product_ids
        store [] []
      rw [h] at hc1 hc2 hc3
      refine ⟨by simpa using hc1, fun pid => by simpa using hc2 pid, ?_⟩
      intro e he
      rcases hc3 e he with hmem | hr
      · simp at hmem
      · exact hr
  · have hfl : Rat.floor ((9000 : ℚ)) = 9000 := rfl
    have hAB : ("A" == "B") = false := rfl
    have h1 : bulkStep vendorU reqAB ([prodA], [], []) "A" =
        ([{ prodA with price := 90 }], [⟨"A", 100, 90⟩], []) := by
      norm_num [bulkStep, reqAB, prodA, prodBase, vendorU, round2,
                roundHalfEven, hfl]
    have h2 : bulkStep vendorU reqAB
        ([{ prodA with price := 90 }], [⟨"A", 100, 90⟩], []) "B" =
        ([{ prodA with price := 90 }], [⟨"A", 100, 90⟩],
         [⟨"B", "not_found"⟩]) := by
      norm_num [bulkStep, reqAB, prodA, prodBase, vendorU, List.find?, hAB]
    have hgate : ¬(vendorU.role ≠ .vendor ∧ vendorU.role ≠ .moderator) := by
      simp [vendorU]
    have hmain : bulk_price_update reqAB vendorU [prodA] =
        .ok (List.foldl (bulkStep vendorU reqAB) ([prodA], [], [])
               reqAB.product_ids) := by
      simp [bulk_price_update, hgate]
    rw [hmain, show reqAB.product_ids = ["A", "B"] from rfl]
    simp only [List.foldl_cons, List.foldl_nil]
    rw [h1, h2]

/-- Witness for `C7_bulk` at concrete inputs. -/
theorem C7_bulk_witness :
    bulk_price_update reqAB modU [prodA] =
      .ok (reqAB.product_ids.foldl (bulkStep modU reqAB) ([prodA], [], [])) ∧
    ([⟨"A", 100, 90⟩] : List UpdatedEntry).length +
        ([⟨"B", "not_found"⟩] : List SkippedEntry).length =
      reqAB.product_ids.length :=
  ⟨C7_bulk.1 reqAB modU [prodA] (Or.inr rfl),
   (C7_bulk.2.1 reqAB vendorU [prodA] [{ prodA with price := 90 }]
      [⟨"A", 100, 90⟩] [⟨"B", "not_found"⟩] C7_bulk.2.2).1⟩

/-- C8. `adjust_stock` computes `new_stock = stock + delta` with the request
delta constrained to `[-10000, 10000]`; when `new_stock < 0` it rejects with
a 400 business error and performs no mutation, otherwise it stores exactly
`stock + delta`; on stock 10 and delta -15 the call is rejected (stock stays
10), while delta -10 succeeds with stock 0. -/
theorem C8_adjust :
    (∀ (body : AdjustStockRequest), body.valid = true →
       -10000 ≤ body.delta ∧ body.delta ≤ 10000) ∧
    (∀ (pid : String) (body : AdjustStockRequest) (u : CurrentUser)
       (s : List Product) (p : Product),
       s.find? (fun q => q.id == pid) = some p → p.vendor_id = u.id →
       p.stock_quantity + body.delta < 0 →
       adjust_stock pid body u s =
         .error ⟨400, "Insufficient stock. Current: " ++
                      toString p.stock_quantity ++ ", delta: " ++
                      toString body.delta⟩) ∧
    (∀ (pid : String) (body : AdjustStockRequest) (u : CurrentUser)
       (s : List Product) (p : Product),
       s.find? (fun q => q.id == pid) = some p → p.vendor_id = u.id →
       ¬(p.stock_quantity + body.delta < 0) →
       adjust_stock pid body u s =
         .ok (s.map (fun q => if q.id == pid then
                       { q with stock_quantity :=
                           p.stock_quantity + body.delta }
                     else q),
              p.stock_quantity + body.delta)) ∧
    adjust_stock "p-1" ⟨-15, "damaged units"⟩ vendorU [prodBase] =
      .error ⟨400, "Insufficient stock. Current: 10, delta: -15"⟩ ∧
    adjust_stock "p-1" ⟨-10, "damaged units"⟩ vendorU [prodBase] =
      .ok ([{ prodBase with stock_quantity := 0 }], 0) := by
  refine ⟨?_, ?_, ?_, ?_, ?_⟩
  · intro body hv
    simp only [AdjustStockRequest.valid, Bool.and_eq_true,
      decide_eq_true_eq] at hv
    exact ⟨hv.1.1.1, hv.1.1.2⟩
  · intro pid body u s p hfind hown hneg
    simp [adjust_stock, hfind, hown, hneg]
  · intro pid body u s p hfind hown hpos
    simp [adjust_stock, hfind, hown, hpos]
  · decide
  · decide

/-- Witness for `C8_adjust` at concrete inputs. -/
theorem C8_adjust_witness :
    (-10000 ≤ (-15 : ℤ) ∧ (-15 : ℤ) ≤ 10000) ∧
    adjust_stock "p-0" ⟨-15, "damaged units"⟩ vendorU
        [{ prodBase with id := "p-0", stock_quantity := 3 }] =
      .error ⟨400, "Insufficient stock. Current: 3, delta: -15"⟩ :=
  ⟨C8_adjust.1 ⟨-15, "damaged units"⟩ (by decide),
   C8_adjust.2.1 "p-0" ⟨-15, "damaged units"⟩ vendorU
     [{ prodBase with id := "p-0", stock_quantity := 3 }]
     { prodBase with id := "p-0", stock_quantity := 3 }
     (by decide) (by decide) (by decide)⟩

/-- A successful lookup in the wishlist store comes from a stored pair. -/
theorem lookup_mem {wls : List (String × List WishlistItem)} {uid : String}
    {l : List WishlistItem} (h : wls.lookup uid = some l) : (uid, l) ∈ wls := by
  induction wls with
  | nil => simp [List.lookup] at h
  | cons pr rest ih =>
    obtain ⟨k, v⟩ := pr
    simp only [List.lookup] at h
    cases hk : (uid == k) with
    | true =>
      rw [hk] at h
      simp only [Option.some.injEq] at h
      have huk : uid = k := by simpa using hk
      rw [huk, ← h]
      exact List.mem_cons_self _ _
    | false =>
      rw [hk] at h
      exact List.mem_cons_of_mem _ (ih h)

/-- Membership in the written-back wishlist store: a pair either carries the
newly written list or was already stored. -/
theorem mem_setWishlist {wls : List (String × List WishlistItem)}
    {uid : String} {l : List WishlistItem} {pr : String × List WishlistItem}
    (h : pr ∈ setWishlist wls uid l) : pr.2 = l ∨ pr ∈ wls := by
  unfold setWishlist at h
  by_cases hs : (wls.lookup uid).isSome = true
  · rw [if_pos hs] at h
    rcases List.mem_map.1 h with ⟨q, hq, hfq⟩
    subst hfq
    by_cases hq1 : (q.1 == uid) = true
    · rw [if_pos hq1]
      exact Or.inl rfl
    · rw [if_neg hq1]
      exact Or.inr hq
  · rw [if_neg hs] at h
    rcases List.mem_append.1 h with h' | h'
    · exact Or.inr h'
    · left
      rw [show pr = (uid, l) by simpa using h']

/-- C9. Every wishlist stays within 500 items: `add_to_wishlist` denies with
404 when the referenced product is absent, denies with 400 when the list
already holds 500 items (leaving every list unchanged, as no state is
produced on error), and otherwise appends exactly the new item stamped with
the current time; removal also preserves the capacity bound. -/
theorem C9_wishlist :
    (∀ (user_id : String) (body : WishlistAddRequest) (u : CurrentUser)
       (now : String) (prods : List Product)
       (wls wls' : List (String × List WishlistItem)) (item : WishlistItem),
       wishlistCap wls →
       add_to_wishlist user_id body u now prods wls = .ok (wls', item) →
       wishlistCap wls') ∧
    (∀ (user_id : String) (body : WishlistAddRequest) (u : CurrentUser)
       (now : String) (prods : List Product)
       (wls : List (String × List WishlistItem)),
       user_id = u.id →
       prods.find? (fun p => p.id == body.product_id) = none →
       add_to_wishlist user_id body u now prods wls =
         .error ⟨404, "Product not found"⟩) ∧
    (∀ (user_id : String) (body : WishlistAddRequest) (u : CurrentUser)
       (now : String) (prods : List Product)
       (wls : List (String × List WishlistItem)) (p : Product),
       user_id = u.id →
       prods.find? (fun p => p.id == body.product_id) = some p →
       ((wls.lookup user_id).getD []).length ≥ 500 →
       add_to_wishlist user_id body u now prods wls =
         .error ⟨400, "Wishlist is full (max 500 items)"⟩) ∧
    (∀ (user_id : String) (body : WishlistAddRequest) (u : CurrentUser)
       (now : String) (prods : List Product)
       (wls : List (String × List WishlistItem)) (p : Product),
       user_id = u.id →
       prods.find? (fun p => p.id == body.product_id) = some p →
       ¬(((wls.lookup user_id).getD []).length ≥ 500) →
       add_to_wishlist user_id body u now prods wls =
         .ok (setWishlist wls user_id (((wls.lookup user_id).getD []) ++
                [⟨body.product_id, body.priority, body.note, now⟩]),
              ⟨body.product_id, body.priority, body.note, now⟩)) ∧
    (∀ (user_id pid : String) (u : CurrentUser)
       (wls : List (String × List WishlistItem)),
       wishlistCap wls →
       wishlistCap (remove_from_wishlist user_id pid u wls).1) := by
  refine ⟨?_, ?_, ?_, ?_, ?_⟩
  · intro user_id body u now prods wls wls' item hcap h
    by_cases huid : user_id = u.id
    · subst huid
      cases hfind : prods.find? (fun p => p.id == body.product_id) with
      | none => simp [add_to_wishlist, hfind] at h
      | some p =>
        by_cases hlen : ((wls.lookup u.id).getD []).length ≥ 500
        · simp [add_to_wishlist, hfind, hlen] at h
        · simp [add_to_wishlist, hfind, hlen] at h
          obtain ⟨hwls', -⟩ := h
          rw [← hwls']
          intro pr hpr
          rcases mem_setWishlist hpr with h2 | h2
          · rw [h2]
            simp only [List.length_append, List.length_cons, List.length_nil]
            omega
          · exact hcap pr h2
    · simp [add_to_wishlist, huid] at h
  · intro user_id body u now prods wls huid hfind
    subst huid
    simp [add_to_wishlist, hfind]
  · intro user_id body u now prods wls p huid hfind hlen
    subst huid
    simp [add_to_wishlist, hfind, hlen]
  · intro user_id body u now prods wls p huid hfind hlen
    subst huid
    simp [add_to_wishlist, hfind, hlen]
  · intro user_id pid u wls hcap
    by_cases huid : user_id = u.id
    · subst huid
      have hfst : (remove_from_wishlist u.id pid u wls).1 =
          setWishlist wls u.id (((wls.lookup u.id).getD []).filter
            (fun i => !(i.product_id == pid))) := by
        unfold remove_from_wishlist
        rw [if_neg (by simp)]
        dsimp only
        split <;> rfl
      rw [hfst]
      intro pr hpr
      rcases mem_setWishlist hpr with h2 | h2
      · rw [h2]
        have hle : (((wls.lookup u.id).getD []).filter
            (fun i => !(i.product_id == pid))).length ≤
            ((wls.lookup u.id).getD []).length :=
          List.length_filter_le _ _
        have hbase : ((wls.lookup u.id).getD []).length ≤ 500 := by
          cases hlk : wls.lookup u.id with
          | none => simp
          | some w =>
            have := hcap (u.id, w) (lookup_mem hlk)
            simpa using this
        omega
      · exact hcap pr h2
    · have hfst : (remove_from_wishlist user_id pid u wls).1 = wls := by
        simp [remove_from_wishlist, huid]
      rw [hfst]
      exact hcap

/-- Witness for `C9_wishlist` at concrete inputs. -/
theorem C9_wishlist_witness :
    wishlistCap [("user-123", [⟨"p-1", 5, none, "t3"⟩])] ∧
    add_to_wishlist "user-123" ⟨"p-404", 5, none⟩ plainU "t3" [prodBase] [] =
      .error ⟨404, "Product not found"⟩ := by
  constructor
  · exact C9_wishlist.1 "user-123" ⟨"p-1", 5, none⟩ plainU "t3" [prodBase]
      [] [("user-123", [⟨"p-1", 5, none, "t3"⟩])] ⟨"p-1", 5, none, "t3"⟩
      (by intro pr hpr; simp at hpr) (by decide)
  · exact C9_wishlist.2.1 "user-123" ⟨"p-404", 5, none⟩ plainU "t3"
      [prodBase] [] rfl (by decide)

/-- C10. `update_product` touches only name, description, price, sale_price,
stock_quantity, status and visibility: id, vendor_id, category, sku,
weight_kg, tags, content_rating and created_at are never modified; an absent
(null) request field leaves the stored value intact; a present `sale_price`
can never be removed; and on success the store changes only by replacing the
matching product with its field update. -/
theorem C10_frame (p : Product) (b : UpdateProductRequest) :
    ((applyUpdate p b).id = p.id ∧
     (applyUpdate p b).vendor_id = p.vendor_id ∧
     (applyUpdate p b).category = p.category ∧
     (applyUpdate p b).sku = p.sku ∧
     (applyUpdate p b).weight_kg = p.weight_kg ∧
     (applyUpdate p b).tags = p.tags ∧
     (applyUpdate p b).content_rating = p.content_rating ∧
     (applyUpdate p b).created_at = p.created_at) ∧
    ((b.name = none → (applyUpdate p b).name = p.name) ∧
     (b.description = none → (applyUpdate p b).description = p.description) ∧
     (b.price = none → (applyUpdate p b).price = p.price) ∧
     (b.sale_price = none → (applyUpdate p b).sale_price = p.sale_price) ∧
     (b.stock_quantity = none →
        (applyUpdate p b).stock_quantity = p.stock_quantity) ∧
     (b.status = none → (applyUpdate p b).status = p.status) ∧
     (b.visibility = none → (applyUpdate p b).visibility = p.visibility)) ∧
    (∀ v, p.sale_price = some v → (applyUpdate p b).sale_price ≠ none) ∧
    (∀ (pid : String) (u : CurrentUser) (st st' : List Product)
       (q' : Product), update_product pid b u st = .ok (st', q') →
       ∃ p0 ∈ st, q' = applyUpdate p0 b ∧
         st' = st.map (fun q => if q.id == pid then q' else q)) := by
  refine ⟨⟨rfl, rfl, rfl, rfl, rfl, rfl, rfl, rfl⟩,
          ⟨?_, ?_, ?_, ?_, ?_, ?_, ?_⟩, ?_, ?_⟩
  · intro h; simp [applyUpdate, h]
  · intro h; simp [applyUpdate, h]
  · intro h; simp [applyUpdate, h]
  · intro h; simp [applyUpdate, h]
  · intro h; simp [applyUpdate, h]
  · intro h; simp [applyUpdate, h]
  · intro h; simp [applyUpdate, h]
  · intro v hv
    cases hb : b.sale_price with
    | none => simp [applyUpdate, hb, hv]
    | some w => simp [applyUpdate, hb]
  · intro pid u st st' q' h
    cases hfind : st.find? (fun q => q.id == pid) with
    | none => simp [update_product, hfind] at h
    | some p0 =>
      by_cases hown : p0.vendor_id = u.id
      · simp [update_product, hfind, hown] at h
        obtain ⟨hst, hp⟩ := h
        refine ⟨p0, List.mem_of_find?_eq_some hfind, hp.symm, ?_⟩
        rw [← hst, hp]
        simp
      · simp [update_product, hfind, hown] at h

/-- Witness for `C10_frame` at concrete inputs. -/
theorem C10_frame_witness :
    (applyUpdate prodBase updPrice40).sku = prodBase.sku ∧
    (applyUpdate prodBase updPrice40).stock_quantity =
      prodBase.stock_quantity ∧
    (applyUpdate prodBase updPrice40).sale_price ≠ none :=
  ⟨(C10_frame prodBase updPrice40).1.2.2.2.1,
   (C10_frame prodBase updPrice40).2.1.2.2.2.2.1 rfl,
   (C10_frame prodBase updPrice40).2.2.1 50 rfl⟩
